import Mathlib

/-!
Shallow embedding of the contestHub backend (Express route handlers over a
document store).  The document store is modelled as association lists keyed
by numeric document ids; `findOne` by `_id` is association-list lookup,
`updateOne` maps over the list replacing the matching entry, `deleteOne`
erases the first matching entry, `insertOne` conses a fresh id.  Strings
stay strings (lifecycle statuses are the literal strings used by the code).
The external payment provider is an association list from session id to the
retrieved session.  Each handler is a pure function from the request inputs
and the store state to a response value paired with the next store state.
-/

namespace ContestHub

/-- A resource id as received over HTTP: either a well-formed ObjectId
(abstracted to a numeric key) or a malformed string, for which
`ObjectId.isValid` is false and the `new ObjectId` constructor throws. -/
inductive RawId
  | malformed (s : String)
  | valid (id : Nat)
deriving DecidableEq, Repr

/-- Embedded creator record (`contestCreator` field: name and email). -/
structure Creator where
  name : String
  email : String
deriving DecidableEq, Repr

/-- Embedded `winner` object written by the declare-winner handler. -/
structure Winner where
  name : String
  email : String
  photo : String
  submissionId : RawId
  declaredAt : Nat
deriving DecidableEq, Repr

/-- A contest document, with the fields written by the part_000 handlers. -/
structure Contest where
  image : String
  name : String
  description : String
  status : String
  participantsCount : Int
  prizeMoney : Int
  contestFee : Int
  category : String
  contestCreator : Creator
  participants : List String
  deadline : Option Nat
  taskInstruction : String
  createdAt : Nat
  winner : Option Winner
  approvedBy : Option String
  approvedAt : Option Nat
deriving DecidableEq, Repr

/-- An order document as inserted by the payment-success handler. -/
structure Order where
  contestId : RawId
  transactionId : String
  participant : String
  status : String
  contestCreator : Creator
  name : String
  category : String
  contestFee : ℚ
  image : String
deriving DecidableEq, Repr

/-- A submission document as inserted by the submit-task handler. -/
structure Submission where
  contestId : String
  email : String
  name : String
  photo : String
  task : String
  submittedAt : Nat
  status : String
deriving DecidableEq, Repr

/-- A retrieved checkout session: status, payment intent (the transaction
id), paid amount in minor units, and the metadata recorded at session
creation (contest id and participant email). -/
structure Session where
  status : String
  payment_intent : String
  amount_total : Int
  contestId : RawId
  participant : String
deriving DecidableEq, Repr

/-- The document store: the three collections the claims touch, plus a
fresh-id counter for inserts and the current clock value used for
`new Date()`. -/
structure DB where
  contests : List (Nat × Contest)
  orders : List (Nat × Order)
  submissions : List (Nat × Submission)
  nextId : Nat
  now : Nat
deriving DecidableEq, Repr

/-- The empty store. -/
def initDB : DB := { contests := [], orders := [], submissions := [], nextId := 0, now := 0 }

/-- Association-list lookup by document id (`findOne` by `_id`). -/
def lookupA {β : Type} (l : List (Nat × β)) (i : Nat) : Option β :=
  (l.find? (fun p => p.1 == i)).map Prod.snd

/-- Association-list field update of the first match (`updateOne` by `_id`
with `$set` updates a single document). -/
def updateA {β : Type} (l : List (Nat × β)) (i : Nat) (f : β → β) : List (Nat × β) :=
  match l with
  | [] => []
  | p :: t => if p.1 == i then (p.1, f p.2) :: t else p :: updateA t i f

/-- Association-list removal of the first match (`deleteOne` by `_id`). -/
def eraseA {β : Type} (l : List (Nat × β)) (i : Nat) : List (Nat × β) :=
  l.eraseP (fun p => p.1 == i)

/-- Look up a contest by id. -/
def findContest (db : DB) (i : Nat) : Option Contest := lookupA db.contests i

/-- Update the contest with the given id, if present. -/
def setContestF (db : DB) (i : Nat) (f : Contest → Contest) : DB :=
  { db with contests := updateA db.contests i f }

/-- Remove the contest with the given id. -/
def removeContest (db : DB) (i : Nat) : DB :=
  { db with contests := eraseA db.contests i }

/-- Look up a submission by id. -/
def findSubmission (db : DB) (i : Nat) : Option Submission := lookupA db.submissions i

/-- Update the submission with the given id, if present. -/
def setSubmissionF (db : DB) (i : Nat) (f : Submission → Submission) : DB :=
  { db with submissions := updateA db.submissions i f }

/-- Find the first order whose `transactionId` equals the given transaction
id (`findOne({ transactionId })`), returning its id and body. -/
def findOrderByTxn (db : DB) (txn : String) : Option (Nat × Order) :=
  db.orders.find? (fun p => p.2.transactionId == txn)

/-- Retrieve a checkout session from the payment provider by session id. -/
def retrieveSession (stripe : List (String × Session)) (sid : String) : Option Session :=
  (stripe.find? (fun p => p.1 == sid)).map Prod.snd

/-- The request body of `POST /contests`.  It may carry a caller-supplied
`status`, which the part_000 handler ignores. -/
structure ContestInput where
  image : String
  name : String
  description : String
  status : Option String
  participantsCount : Int
  prizeMoney : Int
  contestFee : Int
  category : String
  contestCreator : Creator
  participants : List String
  deadline : Option Nat
  taskInstruction : String
deriving DecidableEq, Repr

/-- The contest document built by the part_000 `POST /contests` handler:
`status` is forced to "Pending" no matter what the body carried. -/
def contestDoc (data : ContestInput) (now : Nat) : Contest :=
  { image := data.image
    name := data.name
    description := data.description
    status := "Pending"
    participantsCount := data.participantsCount
    prizeMoney := data.prizeMoney
    contestFee := data.contestFee
    category := data.category
    contestCreator := data.contestCreator
    participants := data.participants
    deadline := data.deadline
    taskInstruction := data.taskInstruction
    createdAt := now
    winner := none
    approvedBy := none
    approvedAt := none }

/-- `POST /contests` (part_000 and the first part_001 revision): insert the
document with server-forced `status = "Pending"`. -/
def createContest (db : DB) (data : ContestInput) : DB :=
  { db with contests := (db.nextId, contestDoc data db.now) :: db.contests,
            nextId := db.nextId + 1 }

/-- The request body of the early `POST /contests` (index.js first
revision), whose `status` field is stored verbatim. -/
structure ContestInputEarly where
  image : String
  name : String
  description : String
  status : String
  participantsCount : Int
  prizeMoney : Int
  contestFee : Int
  category : String
  contestCreator : Creator
  participants : List String
  deadline : Option Nat
deriving DecidableEq, Repr

/-- `POST /contests` in the early index.js revision: the caller-supplied
`status` is trusted and stored unchanged (`status: data.status`). -/
def contestDocEarly (data : ContestInputEarly) (now : Nat) : Contest :=
  { image := data.image
    name := data.name
    description := data.description
    status := data.status
    participantsCount := data.participantsCount
    prizeMoney := data.prizeMoney
    contestFee := data.contestFee
    category := data.category
    contestCreator := data.contestCreator
    participants := data.participants
    deadline := data.deadline
    taskInstruction := ""
    createdAt := now
    winner := none
    approvedBy := none
    approvedAt := none }

/-- Insert step of the early creation handler. -/
def createContest_early (db : DB) (data : ContestInputEarly) : DB :=
  { db with contests := (db.nextId, contestDocEarly data db.now) :: db.contests,
            nextId := db.nextId + 1 }

/-- Response of `PATCH /contest-status/:id`: 400 with a message (malformed
id or disallowed status value), 404, or success. -/
inductive StatusResult
  | invalidInput (msg : String)
  | notFound
  | ok
deriving DecidableEq, Repr

/-- `PATCH /contest-status/:id` (admin approve/reject, part_000 lines
131-177): validate the id, restrict the target status to
"Confirmed"/"Rejected", then `$set` status plus `approvedBy`/`approvedAt`;
404 when no document matched. -/
def contestStatus (db : DB) (adminEmail : String) (rid : RawId) (st : String) :
    StatusResult × DB :=
  match rid with
  | .malformed _ => (.invalidInput "Invalid Contest ID", db)
  | .valid i =>
    if st = "Confirmed" ∨ st = "Rejected" then
      match findContest db i with
      | none => (.notFound, db)
      | some _ =>
        (.ok, setContestF db i (fun c =>
          { c with status := st, approvedBy := some adminEmail, approvedAt := some db.now }))
    else (.invalidInput "Invalid status value provided", db)

/-- The request body of `PATCH /contests/winner/:contestId`. -/
structure WinnerInput where
  winnerName : String
  winnerEmail : String
  winnerPhoto : String
  submissionId : RawId
deriving DecidableEq, Repr

/-- Response of `PATCH /contests/winner/:contestId`: 400 "Invalid Contest
ID", 404, 400 "already been declared" (Conflict), 400 "must be Confirmed"
(InvalidState), 500 (thrown while updating the submission), or success. -/
inductive DeclareResult
  | invalidId
  | notFound
  | conflict
  | invalidState
  | error
  | success
deriving DecidableEq, Repr

/-- `PATCH /contests/winner/:contestId` (part_000 lines 372-440): validate
the id, fetch the contest, fail on an already-declared winner, fail when
the status is not "Confirmed", otherwise `$set` the winner object together
with `status = "Completed"`, then mark the referenced submission "Winner".
A malformed submission id makes `new ObjectId` throw after the contest
update, leaving a 500 with the contest already modified. -/
def declareWinner (db : DB) (rid : RawId) (w : WinnerInput) : DeclareResult × DB :=
  match rid with
  | .malformed _ => (.invalidId, db)
  | .valid i =>
    match findContest db i with
    | none => (.notFound, db)
    | some c =>
      if c.winner.isSome then (.conflict, db)
      else if c.status ≠ "Confirmed" then (.invalidState, db)
      else
        let db1 := setContestF db i (fun c0 =>
          { c0 with
              winner := some { name := w.winnerName, email := w.winnerEmail,
                               photo := w.winnerPhoto, submissionId := w.submissionId,
                               declaredAt := db.now }
              status := "Completed" })
        match w.submissionId with
        | .malformed _ => (.error, db1)
        | .valid sid => (.success, setSubmissionF db1 sid (fun s => { s with status := "Winner" }))

/-- Response of the delete handlers: 400, 404, 403 with a message, or
success. -/
inductive DeleteResult
  | invalidInput (msg : String)
  | notFound (msg : String)
  | forbidden (msg : String)
  | ok
deriving DecidableEq, Repr

/-- `DELETE /creator-contests-delete/:id` (part_000 lines 443-497):
validate the id, fetch the contest, require `status = "Pending"`, require
the requester's verified email to equal the recorded creator email, then
delete.  With the contest just found, `deletedCount` is 1 in this
sequential model, so the post-delete 404 branch is unreachable. -/
def creatorDelete (db : DB) (creatorEmail : String) (rid : RawId) : DeleteResult × DB :=
  match rid with
  | .malformed _ => (.invalidInput "Invalid Contest ID", db)
  | .valid i =>
    match findContest db i with
    | none => (.notFound "Contest not found.", db)
    | some c =>
      if c.status ≠ "Pending" then
        (.forbidden "Contests can only be deleted if the status is Pending.", db)
      else if c.contestCreator.email ≠ creatorEmail then
        (.forbidden "Forbidden: You are not the creator of this contest.", db)
      else
        (.ok, removeContest db i)

/-- `DELETE /contests-delete/:id` (admin, part_000 lines 180-210):
unconditional delete; 404 when nothing matched. -/
def adminDelete (db : DB) (rid : RawId) : DeleteResult × DB :=
  match rid with
  | .malformed _ => (.invalidInput "Invalid Contest ID", db)
  | .valid i =>
    match findContest db i with
    | none => (.notFound "Contest not found", db)
    | some _ => (.ok, removeContest db i)

/-- The request body of `PUT /contests-update/:id`: a partial document,
`none` meaning the key is absent from the JSON body.  The `winner` entry
carries an `Option Winner` since the body may set the field to null. -/
structure UpdatePayload where
  image : Option String
  name : Option String
  description : Option String
  status : Option String
  participantsCount : Option Int
  prizeMoney : Option Int
  contestFee : Option Int
  category : Option String
  contestCreator : Option Creator
  participants : Option (List String)
  deadline : Option (Option Nat)
  taskInstruction : Option String
  winner : Option (Option Winner)
deriving DecidableEq, Repr

/-- The payload whose keys are all absent. -/
def emptyPayload : UpdatePayload :=
  { image := none, name := none, description := none, status := none,
    participantsCount := none, prizeMoney := none, contestFee := none,
    category := none, contestCreator := none, participants := none,
    deadline := none, taskInstruction := none, winner := none }

/-- `$set` of the payload's present keys onto a contest document. -/
def applyPayload (c : Contest) (p : UpdatePayload) : Contest :=
  { c with
      image := p.image.getD c.image
      name := p.name.getD c.name
      description := p.description.getD c.description
      status := p.status.getD c.status
      participantsCount := p.participantsCount.getD c.participantsCount
      prizeMoney := p.prizeMoney.getD c.prizeMoney
      contestFee := p.contestFee.getD c.contestFee
      category := p.category.getD c.category
      contestCreator := p.contestCreator.getD c.contestCreator
      participants := p.participants.getD c.participants
      deadline := p.deadline.getD c.deadline
      taskInstruction := p.taskInstruction.getD c.taskInstruction
      winner := p.winner.getD c.winner }

/-- Response of `PUT /contests-update/:id`: 500 (thrown `new ObjectId`) or
success; the handler reports success even when no document matched. -/
inductive UpdateResult
  | error
  | ok
deriving DecidableEq, Repr

/-- `PUT /contests-update/:id` (part_000 lines 338-369): the handler
removes any caller-supplied `status` key from the payload before `$set`. -/
def updateContest (db : DB) (rid : RawId) (p : UpdatePayload) : UpdateResult × DB :=
  match rid with
  | .malformed _ => (.error, db)
  | .valid i =>
    let p' := { p with status := none }
    match findContest db i with
    | none => (.ok, db)
    | some _ => (.ok, setContestF db i (fun c => applyPayload c p'))

/-- `PUT /contests-update/:id` in the early index.js revision (lines
332-348): the payload is applied verbatim, `status` key included. -/
def updateContest_early (db : DB) (rid : RawId) (p : UpdatePayload) : UpdateResult × DB :=
  match rid with
  | .malformed _ => (.error, db)
  | .valid i =>
    match findContest db i with
    | none => (.ok, db)
    | some _ => (.ok, setContestF db i (fun c => applyPayload c p))

/-- The request body of `POST /submit-task`. -/
structure SubmitInput where
  contestId : String
  task : String
  email : String
  name : String
  photoUrl : String
deriving DecidableEq, Repr

/-- `POST /submit-task` (part_000 lines 500-513): plain insert with
`status = "Pending"`. -/
def submitTask (db : DB) (s : SubmitInput) : DB :=
  { db with
      submissions := (db.nextId,
        { contestId := s.contestId, email := s.email, name := s.name,
          photo := s.photoUrl, task := s.task, submittedAt := db.now,
          status := "Pending" }) :: db.submissions
      nextId := db.nextId + 1 }

/-- `$addToSet` on the participants array: append unless already present. -/
def addToSet (l : List String) (x : String) : List String :=
  if x ∈ l then l else l ++ [x]

/-- Response of `POST /payment-success`: 500 ("Payment processing failed.")
or the transaction id with the order id (the fresh one, the existing one,
or none). -/
inductive PayResult
  | failed
  | ok (transactionId : String) (orderId : Option Nat)
deriving DecidableEq, Repr

/-- The order document inserted on first settlement: transaction id from
the session's payment intent, participant from the session metadata, and a
denormalized snapshot of the contest (fee = `amount_total / 100`). -/
def orderSnapshot (sess : Session) (cid : Nat) (c : Contest) : Order :=
  { contestId := RawId.valid cid
    transactionId := sess.payment_intent
    participant := sess.participant
    status := "Paid"
    contestCreator := c.contestCreator
    name := c.name
    category := c.category
    contestFee := (sess.amount_total : ℚ) / 100
    image := c.image }

/-- The contest update of first settlement: `$addToSet` the participant
email and `$inc` the participant counter. -/
def participantJoin (em : String) (c0 : Contest) : Contest :=
  { c0 with participants := addToSet c0.participants em,
            participantsCount := c0.participantsCount + 1 }

/-- The two writes of a first settlement: insert the order (with the fresh
id), then apply `participantJoin` to the referenced contest. -/
def settle (db : DB) (sess : Session) (cid : Nat) (c : Contest) : DB :=
  setContestF
    { db with orders := (db.nextId, orderSnapshot sess cid c) :: db.orders,
              nextId := db.nextId + 1 }
    cid (participantJoin sess.participant)

/-- `POST /payment-success` (part_000 lines 546-597): retrieve the session,
look up the referenced contest and any order keyed by the session's
`payment_intent`; when the session is complete, the contest exists and no
order exists yet, insert the order snapshot and `$addToSet` the participant
plus `$inc` the counter; otherwise return the transaction id and the
existing order's id (or none) without writing.  Failure to retrieve the
session or a malformed metadata contest id throws into the 500 branch. -/
def paymentSuccess (stripe : List (String × Session)) (db : DB) (sid : String) :
    PayResult × DB :=
  match retrieveSession stripe sid with
  | none => (.failed, db)
  | some sess =>
    match sess.contestId with
    | .malformed _ => (.failed, db)
    | .valid cid =>
      match findContest db cid with
      | none => (.ok sess.payment_intent ((findOrderByTxn db sess.payment_intent).map Prod.fst), db)
      | some c =>
        if sess.status = "complete" ∧ findOrderByTxn db sess.payment_intent = none then
          (.ok sess.payment_intent (some db.nextId), settle db sess cid c)
        else
          (.ok sess.payment_intent ((findOrderByTxn db sess.payment_intent).map Prod.fst), db)

/-- `countDocuments({ participant: email })` on the orders collection. -/
def countParticipations (db : DB) (email : String) : Nat :=
  (db.orders.filter (fun p => p.2.participant == email)).length

/-- The filter of `countDocuments({ "winner.email": email, status: "Completed" })`. -/
def isWinOf (c : Contest) (email : String) : Bool :=
  (match c.winner with
   | some w => w.email == email
   | none => false) && c.status == "Completed"

/-- `countDocuments({ "winner.email": email, status: "Completed" })` on the
contests collection. -/
def countWins (db : DB) (email : String) : Nat :=
  (db.contests.filter (fun p => isWinOf p.2 email)).length

/-- JavaScript's `x.toFixed(2)` on the stats percentage, modelled exactly
over the rationals as the number of hundredths, rounded to nearest.  (The
source computes with IEEE doubles; on the integer counts involved the
rational value is the intended one.) -/
def toFixed2 (q : ℚ) : ℤ := round (q * 100)

/-- Response body of `GET /my-stats` (the numeric parts). -/
structure MyStats where
  participationCount : Nat
  winCount : Nat
  winPercentage : ℤ
deriving DecidableEq, Repr

/-- `GET /my-stats` (part_000 lines 890-936): count participations and
wins, then report `(winCount / participationCount) * 100` via `toFixed(2)`,
with 0 when there are no participations. -/
def myStats (db : DB) (email : String) : MyStats :=
  let participationCount := countParticipations db email
  let winCount := countWins db email
  let winPercentage : ℚ :=
    if participationCount > 0 then ((winCount : ℚ) / (participationCount : ℚ)) * 100 else 0
  { participationCount := participationCount
    winCount := winCount
    winPercentage := toFixed2 winPercentage }

/-- Per-contest form of the spec invariant: the `winner` field is present
exactly when `status = "Completed"`. -/
def contestOK (c : Contest) : Bool :=
  c.winner.isSome == (c.status == "Completed")

/-- The spec invariant over a whole store state. -/
def winnerIffCompleted (db : DB) : Bool :=
  db.contests.all (fun p => contestOK p.2)

/-- States reachable from the empty store through the write operations of
the API, each applied with arbitrary request inputs. -/
inductive Reach : DB → Prop
  | start : Reach initDB
  | create (db : DB) (data : ContestInput) : Reach db → Reach (createContest db data)
  | approve (db : DB) (a : String) (rid : RawId) (st : String) :
      Reach db → Reach (contestStatus db a rid st).2
  | declare (db : DB) (rid : RawId) (w : WinnerInput) :
      Reach db → Reach (declareWinner db rid w).2
  | creatorDel (db : DB) (e : String) (rid : RawId) :
      Reach db → Reach (creatorDelete db e rid).2
  | adminDel (db : DB) (rid : RawId) : Reach db → Reach (adminDelete db rid).2
  | updt (db : DB) (rid : RawId) (p : UpdatePayload) :
      Reach db → Reach (updateContest db rid p).2
  | pay (stripe : List (String × Session)) (db : DB) (sid : String) :
      Reach db → Reach (paymentSuccess stripe db sid).2
  | submitT (db : DB) (s : SubmitInput) : Reach db → Reach (submitTask db s)

/-- Reachability restricted to runs in which the admin approve/reject is
never applied to an already-Completed contest and no creator update payload
carries a `winner` key — the two request patterns the handlers accept but
the spec's lifecycle rules out. -/
inductive ReachGood : DB → Prop
  | start : ReachGood initDB
  | create (db : DB) (data : ContestInput) : ReachGood db → ReachGood (createContest db data)
  | approve (db : DB) (a : String) (rid : RawId) (st : String) :
      ReachGood db →
      (∀ i c, rid = RawId.valid i → findContest db i = some c → c.status ≠ "Completed") →
      ReachGood (contestStatus db a rid st).2
  | declare (db : DB) (rid : RawId) (w : WinnerInput) :
      ReachGood db → ReachGood (declareWinner db rid w).2
  | creatorDel (db : DB) (e : String) (rid : RawId) :
      ReachGood db → ReachGood (creatorDelete db e rid).2
  | adminDel (db : DB) (rid : RawId) : ReachGood db → ReachGood (adminDelete db rid).2
  | updt (db : DB) (rid : RawId) (p : UpdatePayload) :
      ReachGood db → p.winner = none → ReachGood (updateContest db rid p).2
  | pay (stripe : List (String × Session)) (db : DB) (sid : String) :
      ReachGood db → ReachGood (paymentSuccess stripe db sid).2
  | submitT (db : DB) (s : SubmitInput) : ReachGood db → ReachGood (submitTask db s)

/-- Sample creator record. -/
def creatorA : Creator := { name := "Alice", email := "alice@x.com" }

/-- Sample contest-creation request body. -/
def dataA : ContestInput :=
  { image := "img", name := "Logo Design", description := "d", status := none,
    participantsCount := 0, prizeMoney := 100, contestFee := 20,
    category := "Design", contestCreator := creatorA, participants := [],
    deadline := none, taskInstruction := "t" }

/-- Sample winner-declaration request body. -/
def wInA : WinnerInput :=
  { winnerName := "Bob", winnerEmail := "bob@x.com", winnerPhoto := "p",
    submissionId := RawId.valid 5 }

/-- Store after creating one contest (document id 0). -/
def dbA : DB := createContest initDB dataA

/-- Store after the admin confirms contest 0. -/
def dbB : DB := (contestStatus dbA "admin@x.com" (RawId.valid 0) "Confirmed").2

/-- Store after the creator declares a winner on contest 0 (now
Completed). -/
def dbC : DB := (declareWinner dbB (RawId.valid 0) wInA).2

/-- Store after the admin subsequently rejects the already-Completed
contest 0 — accepted by the status handler, which has no terminality
check. -/
def dbD : DB := (contestStatus dbC "admin@x.com" (RawId.valid 0) "Rejected").2

/-- The contest document as first created (id 0 in `dbA`). -/
def cA : Contest := contestDoc dataA 0

/-- Contest 0 as it stands in `dbB`. -/
def cB : Contest :=
  { cA with status := "Confirmed", approvedBy := some "admin@x.com", approvedAt := some 0 }

/-- Contest 0 as it stands in `dbC`. -/
def cC : Contest :=
  { cB with status := "Completed",
            winner := some { name := "Bob", email := "bob@x.com", photo := "p",
                             submissionId := RawId.valid 5, declaredAt := 0 } }

/-- Sample submission request body. -/
def subA : SubmitInput :=
  { contestId := "0", task := "my task", email := "bob@x.com", name := "Bob",
    photoUrl := "p" }

/-- Store with a Confirmed contest 0 and one submission (id 1). -/
def dbS : DB := submitTask dbB subA

/-- The submission document with id 1 in `dbS`. -/
def sA : Submission :=
  { contestId := "0", email := "bob@x.com", name := "Bob", photo := "p",
    task := "my task", submittedAt := 0, status := "Pending" }

/-- Winner-declaration body referencing the stored submission 1. -/
def wInB : WinnerInput :=
  { winnerName := "Bob", winnerEmail := "bob@x.com", winnerPhoto := "p",
    submissionId := RawId.valid 1 }

/-- A retrieved completed checkout session for contest 0. -/
def sessA : Session :=
  { status := "complete", payment_intent := "pi_1", amount_total := 2000,
    contestId := RawId.valid 0, participant := "pat@x.com" }

/-- A retrieved but not completed checkout session for contest 0. -/
def sessOpen : Session :=
  { status := "open", payment_intent := "pi_2", amount_total := 2000,
    contestId := RawId.valid 0, participant := "pat@x.com" }

/-- The payment provider holding the two sample sessions. -/
def stripeA : List (String × Session) := [("cs_1", sessA), ("cs_2", sessOpen)]

/-- The early creation request carrying a caller-chosen status. -/
def dataEarly : ContestInputEarly :=
  { image := "img", name := "n", description := "d", status := "Confirmed",
    participantsCount := 0, prizeMoney := 0, contestFee := 0, category := "c",
    contestCreator := creatorA, participants := [], deadline := none }

/-- An update payload whose only key is a caller-supplied status. -/
def pConfirm : UpdatePayload := { emptyPayload with status := some "Confirmed" }

/-- A sample order by participant `p@x.com` with the given transaction id. -/
def orderFor (t : String) : Order :=
  { contestId := RawId.valid 0, transactionId := t, participant := "p@x.com",
    status := "Paid", contestCreator := creatorA, name := "n", category := "c",
    contestFee := 20, image := "i" }

/-- A Completed contest won by `p@x.com`. -/
def wonContest (t : Nat) : Contest :=
  { cA with status := "Completed",
            winner := some { name := "P", email := "p@x.com", photo := "ph",
                             submissionId := RawId.valid 9, declaredAt := t } }

/-- A store on which `p@x.com` has 4 participations and 2 wins. -/
def dbStats : DB :=
  { contests := [(0, wonContest 1), (1, wonContest 2), (2, cA)],
    orders := [(10, orderFor "t1"), (11, orderFor "t2"), (12, orderFor "t3"),
               (13, orderFor "t4")],
    submissions := [], nextId := 20, now := 5 }

theorem lookupA_updateA_self {β : Type} (l : List (Nat × β)) (i : Nat) (f : β → β) :
    lookupA (updateA l i f) i = (lookupA l i).map f := by
  induction l with
  | nil => rfl
  | cons p t ih =>
    rcases p with ⟨k, b⟩
    by_cases h : k = i
    · subst h
      simp [updateA, lookupA]
    · simp only [updateA, lookupA] at ih ⊢
      rw [if_neg (by simpa using h)]
      rw [List.find?_cons_of_neg _ (by simpa using h), List.find?_cons_of_neg _ (by simpa using h)]
      exact ih

theorem lookupA_updateA_ne {β : Type} (l : List (Nat × β)) (i j : Nat) (f : β → β)
    (hij : j ≠ i) : lookupA (updateA l i f) j = lookupA l j := by
  induction l with
  | nil => rfl
  | cons p t ih =>
    rcases p with ⟨k, b⟩
    by_cases h : k = i
    · subst h
      simp only [updateA, beq_self_eq_true, if_true]
      simp only [lookupA]
      rw [List.find?_cons_of_neg _ (by simpa using fun hh => hij hh.symm),
          List.find?_cons_of_neg _ (by simpa using fun hh => hij hh.symm)]
    · simp only [updateA] at ih ⊢
      rw [if_neg (by simpa using h)]
      by_cases hkj : k = j
      · subst hkj
        simp [lookupA]
      · simp only [lookupA]
        rw [List.find?_cons_of_neg _ (by simpa using hkj),
            List.find?_cons_of_neg _ (by simpa using hkj)]
        exact ih

theorem all_updateA_of_lookup {β : Type} (l : List (Nat × β)) (i : Nat) (f : β → β)
    (P : β → Bool) (hl : l.all (fun p => P p.2) = true)
    (hf : ∀ b, lookupA l i = some b → P b = true → P (f b) = true) :
    (updateA l i f).all (fun p => P p.2) = true := by
  induction l with
  | nil => rfl
  | cons p t ih =>
    rcases p with ⟨k, b⟩
    simp only [List.all_cons, Bool.and_eq_true] at hl
    by_cases h : k = i
    · subst h
      simp only [updateA, beq_self_eq_true, if_true, List.all_cons, Bool.and_eq_true]
      refine ⟨hf b ?_ hl.1, hl.2⟩
      simp [lookupA]
    · simp only [updateA]
      rw [if_neg (by simpa using h)]
      simp only [List.all_cons, Bool.and_eq_true]
      refine ⟨hl.1, ih hl.2 ?_⟩
      intro b2 hb2 hP
      refine hf b2 ?_ hP
      simp only [lookupA]
      rw [List.find?_cons_of_neg _ (by simpa using h)]
      exact hb2

theorem all_eraseA {β : Type} (l : List (Nat × β)) (i : Nat) (P : β → Bool)
    (hl : l.all (fun p => P p.2) = true) :
    (eraseA l i).all (fun p => P p.2) = true := by
  rw [List.all_eq_true] at hl ⊢
  intro x hx
  exact hl x ((List.eraseP_sublist l).mem hx)

theorem winnerIffCompleted_create (db : DB) (data : ContestInput)
    (h : winnerIffCompleted db = true) :
    winnerIffCompleted (createContest db data) = true := by
  show ((db.nextId, contestDoc data db.now) :: db.contests).all (fun p => contestOK p.2) = true
  simp only [List.all_cons, Bool.and_eq_true]
  exact ⟨rfl, h⟩

theorem winnerIffCompleted_approve (db : DB) (a : String) (rid : RawId) (st : String)
    (h : winnerIffCompleted db = true)
    (hside : ∀ i c, rid = RawId.valid i → findContest db i = some c → c.status ≠ "Completed") :
    winnerIffCompleted (contestStatus db a rid st).2 = true := by
  unfold contestStatus
  split
  · exact h
  · rename_i i
    split
    · rename_i hst
      split
      · exact h
      · rename_i c hc
        show (updateA db.contests i _).all (fun p => contestOK p.2) = true
        refine all_updateA_of_lookup _ _ _ _ h ?_
        intro b hb hP
        have hb2 : findContest db i = some b := hb
        rw [hc] at hb2
        cases hb2
        have hnc : c.status ≠ "Completed" := hside i c rfl hc
        have hys : (c.status == "Completed") = false := by simpa using hnc
        have hwin : c.winner.isSome = false := by
          simp only [contestOK, beq_iff_eq] at hP
          rw [hP, hys]
        have e : contestOK { c with status := st, approvedBy := some a, approvedAt := some db.now } =
            (c.winner.isSome == (st == "Completed")) := rfl
        rw [e, hwin]
        have hstne : (st == "Completed") = false := by
          rcases hst with h1 | h1 <;> subst h1 <;> rfl
        rw [hstne]
        rfl
    · exact h

theorem winnerIffCompleted_declare (db : DB) (rid : RawId) (w : WinnerInput)
    (h : winnerIffCompleted db = true) :
    winnerIffCompleted (declareWinner db rid w).2 = true := by
  unfold declareWinner
  split
  · exact h
  · rename_i i
    split
    · exact h
    · rename_i c hc
      split
      · exact h
      · split
        · exact h
        · have hall : (updateA db.contests i (fun c0 =>
              { c0 with
                  winner := some { name := w.winnerName, email := w.winnerEmail,
                                   photo := w.winnerPhoto, submissionId := w.submissionId,
                                   declaredAt := db.now }
                  status := "Completed" })).all (fun p => contestOK p.2) = true := by
            refine all_updateA_of_lookup _ _ _ _ h ?_
            intro b _ _
            rfl
          split
          · exact hall
          · exact hall

theorem winnerIffCompleted_creatorDel (db : DB) (e : String) (rid : RawId)
    (h : winnerIffCompleted db = true) :
    winnerIffCompleted (creatorDelete db e rid).2 = true := by
  unfold creatorDelete
  split
  · exact h
  · rename_i i
    split
    · exact h
    · split
      · exact h
      · split
        · exact h
        · exact all_eraseA _ _ _ h

theorem winnerIffCompleted_adminDel (db : DB) (rid : RawId)
    (h : winnerIffCompleted db = true) :
    winnerIffCompleted (adminDelete db rid).2 = true := by
  unfold adminDelete
  split
  · exact h
  · rename_i i
    split
    · exact h
    · exact all_eraseA _ _ _ h

theorem winnerIffCompleted_updt (db : DB) (rid : RawId) (p : UpdatePayload)
    (h : winnerIffCompleted db = true) (hw : p.winner = none) :
    winnerIffCompleted (updateContest db rid p).2 = true := by
  unfold updateContest
  split
  · exact h
  · rename_i i
    split
    · exact h
    · show (updateA db.contests i _).all (fun q => contestOK q.2) = true
      refine all_updateA_of_lookup _ _ _ _ h ?_
      intro b _ hP
      have e : contestOK (applyPayload b { p with status := none }) =
          ((p.winner.getD b.winner).isSome == (b.status == "Completed")) := rfl
      rw [e, hw]
      exact hP

theorem winnerIffCompleted_pay (stripe : List (String × Session)) (db : DB) (sid : String)
    (h : winnerIffCompleted db = true) :
    winnerIffCompleted (paymentSuccess stripe db sid).2 = true := by
  unfold paymentSuccess
  split
  · exact h
  · split
    · exact h
    · split
      · exact h
      · split
        · show (updateA db.contests _ _).all (fun q => contestOK q.2) = true
          refine all_updateA_of_lookup _ _ _ _ h ?_
          intro b _ hP
          exact hP
        · exact h

theorem winnerIffCompleted_submitT (db : DB) (s : SubmitInput)
    (h : winnerIffCompleted db = true) :
    winnerIffCompleted (submitTask db s) = true := h

theorem reachGood_inv (db : DB) (hr : ReachGood db) : winnerIffCompleted db = true := by
  induction hr with
  | start => rfl
  | create db data _ ih => exact winnerIffCompleted_create db data ih
  | approve db a rid st _ hside ih => exact winnerIffCompleted_approve db a rid st ih hside
  | declare db rid w _ ih => exact winnerIffCompleted_declare db rid w ih
  | creatorDel db e rid _ ih => exact winnerIffCompleted_creatorDel db e rid ih
  | adminDel db rid _ ih => exact winnerIffCompleted_adminDel db rid ih
  | updt db rid p _ hw ih => exact winnerIffCompleted_updt db rid p ih hw
  | pay stripe db sid _ ih => exact winnerIffCompleted_pay stripe db sid ih
  | submitT db s _ ih => exact winnerIffCompleted_submitT db s ih

theorem settle_findContest (db : DB) (sess : Session) (cid : Nat) (c : Contest)
    (hc : findContest db cid = some c) :
    findContest (settle db sess cid c) cid = some (participantJoin sess.participant c) := by
  show lookupA (updateA db.contests cid (participantJoin sess.participant)) cid = _
  rw [lookupA_updateA_self]
  have h0 : lookupA db.contests cid = some c := hc
  rw [h0]
  rfl

theorem settle_findOrder (db : DB) (sess : Session) (cid : Nat) (c : Contest) :
    findOrderByTxn (settle db sess cid c) sess.payment_intent =
      some (db.nextId, orderSnapshot sess cid c) := by
  show ((db.nextId, orderSnapshot sess cid c) :: db.orders).find?
      (fun p => p.2.transactionId == sess.payment_intent) = _
  rw [List.find?_cons_of_pos]
  exact beq_self_eq_true _

/-- Claim C1: settlement is idempotent.  For a retrievable completed
session whose referenced contest exists and whose transaction has no order
yet, calling payment-success twice with the same session id creates exactly
one Order for that transaction id, increments the contest's participant
count exactly once, leaves the store untouched on the second call, and the
second call returns the same order id as the first. -/
theorem C1_settlement_idempotent (stripe : List (String × Session)) (db : DB)
    (sid : String) (sess : Session) (cid : Nat) (c : Contest)
    (hs : retrieveSession stripe sid = some sess)
    (hcid : sess.contestId = RawId.valid cid)
    (hcomplete : sess.status = "complete")
    (hc : findContest db cid = some c)
    (hno : findOrderByTxn db sess.payment_intent = none) :
    ∃ oid : Nat, ∃ db1 : DB,
      paymentSuccess stripe db sid = (PayResult.ok sess.payment_intent (some oid), db1) ∧
      paymentSuccess stripe db1 sid = (PayResult.ok sess.payment_intent (some oid), db1) ∧
      (db1.orders.filter (fun p => p.2.transactionId == sess.payment_intent)).length = 1 ∧
      db1.orders.length = db.orders.length + 1 ∧
      (findContest db1 cid).map Contest.participantsCount = some (c.participantsCount + 1) := by
  refine ⟨db.nextId, settle db sess cid c, ?_, ?_, ?_, ?_, ?_⟩
  · simp only [paymentSuccess, hs, hcid, hc, hno, hcomplete]
    simp
  · have hc1 : findContest (settle db sess cid c) cid =
        some (participantJoin sess.participant c) := settle_findContest db sess cid c hc
    have ho1 : findOrderByTxn (settle db sess cid c) sess.payment_intent =
        some (db.nextId, orderSnapshot sess cid c) := settle_findOrder db sess cid c
    simp only [paymentSuccess, hs, hcid, hc1, ho1, hcomplete]
    simp
  · show (((db.nextId, orderSnapshot sess cid c) :: db.orders).filter
        (fun p => p.2.transactionId == sess.payment_intent)).length = 1
    rw [List.filter_cons_of_pos]
    · have hnil : db.orders.filter (fun p => p.2.transactionId == sess.payment_intent) = [] := by
        rw [List.filter_eq_nil_iff]
        intro a ha
        have hne := List.find?_eq_none.mp hno a ha
        simpa using hne
      rw [hnil]
      rfl
    · exact beq_self_eq_true _
  · show ((db.nextId, orderSnapshot sess cid c) :: db.orders).length = db.orders.length + 1
    exact List.length_cons _ _
  · rw [settle_findContest db sess cid c hc]
    rfl

/-- Witness for C1 at a concrete input: settling the completed session
cs_1 for contest 0 on the store with the Confirmed contest. -/
theorem C1_settlement_idempotent_witness :
    ∃ oid : Nat, ∃ db1 : DB,
      paymentSuccess stripeA dbB "cs_1" = (PayResult.ok sessA.payment_intent (some oid), db1) ∧
      paymentSuccess stripeA db1 "cs_1" = (PayResult.ok sessA.payment_intent (some oid), db1) ∧
      (db1.orders.filter (fun p => p.2.transactionId == sessA.payment_intent)).length = 1 ∧
      db1.orders.length = dbB.orders.length + 1 ∧
      (findContest db1 0).map Contest.participantsCount = some (cB.participantsCount + 1) :=
  C1_settlement_idempotent stripeA dbB "cs_1" sessA 0 cB (by decide) rfl rfl (by decide) rfl

/-- Claim C2 counterexample: the claim that every state reachable through
the API's operations satisfies "winner present iff status = Completed" is
false: create a contest, confirm it, declare a winner (now Completed with a
winner), then have the admin status endpoint — which has no terminality
check — set the status to Rejected; the winner stays present while the
status is no longer Completed. -/
theorem C2_winner_iff_completed_counterexample :
    ¬ (∀ db : DB, Reach db → winnerIffCompleted db = true) := by
  intro hclaim
  have hr : Reach dbD :=
    Reach.approve dbC "admin@x.com" (RawId.valid 0) "Rejected"
      (Reach.declare dbB (RawId.valid 0) wInA
        (Reach.approve dbA "admin@x.com" (RawId.valid 0) "Confirmed"
          (Reach.create initDB dataA Reach.start)))
  exact absurd (hclaim dbD hr) (by decide)

/-- Claim C2, amended: in every state reachable through the API's
operations in which the admin approve/reject is never applied to an
already-Completed contest and no creator update payload carries a winner
key, the winner field is present iff status = Completed. -/
theorem C2_winner_iff_completed_amended (db : DB) (h : ReachGood db) :
    winnerIffCompleted db = true :=
  reachGood_inv db h

/-- Witness for the amended C2 at a concrete reachable store. -/
theorem C2_winner_iff_completed_witness : winnerIffCompleted dbA = true :=
  C2_winner_iff_completed_amended dbA (ReachGood.create initDB dataA ReachGood.start)

/-- Claim C3 counterexample: the claim says every contest with status
different from Confirmed yields InvalidState on winner declaration, but a
Completed contest with a winner (status Completed, not Confirmed) yields
Conflict instead, because the winner check runs first. -/
theorem C3_declare_winner_errors_counterexample :
    (findContest dbC 0).map Contest.status = some "Completed" ∧
    (some "Completed" : Option String) ≠ some "Confirmed" ∧
    (declareWinner dbC (RawId.valid 0) wInA).1 = DeclareResult.conflict ∧
    (declareWinner dbC (RawId.valid 0) wInA).1 ≠ DeclareResult.invalidState := by
  decide

/-- Claim C3, amended: declaring a winner on a contest that already has a
winner yields Conflict and leaves the store (hence the first winner record)
unchanged; declaring a winner on a contest without a winner whose status is
not Confirmed yields InvalidState and performs no write. -/
theorem C3_declare_winner_errors_amended (db : DB) (i : Nat) (c : Contest) (w : WinnerInput)
    (hc : findContest db i = some c) :
    (c.winner.isSome = true → declareWinner db (RawId.valid i) w = (DeclareResult.conflict, db)) ∧
    (c.winner = none → c.status ≠ "Confirmed" →
      declareWinner db (RawId.valid i) w = (DeclareResult.invalidState, db)) := by
  constructor
  · intro hw
    simp only [declareWinner, hc, hw]
    rfl
  · intro hw hs
    simp only [declareWinner, hc]
    rw [if_neg (by simp [hw]), if_pos hs]

/-- Witness for the amended C3: the Conflict branch on the Completed
contest with a winner, and the InvalidState branch on the Pending one. -/
theorem C3_declare_winner_errors_witness :
    declareWinner dbC (RawId.valid 0) wInA = (DeclareResult.conflict, dbC) ∧
    declareWinner dbA (RawId.valid 0) wInA = (DeclareResult.invalidState, dbA) :=
  ⟨(C3_declare_winner_errors_amended dbC 0 cC wInA (by decide)).1 (by decide),
   (C3_declare_winner_errors_amended dbA 0 cA wInA (by decide)).2 rfl (by decide)⟩

/-- Claim C4: on successful winner declaration (contest exists, no winner
yet, status Confirmed, valid submission reference), the single contest
write sets the winner object together with status = Completed, and the
referenced submission's status becomes Winner. -/
theorem C4_declare_winner_success (db : DB) (cid sid : Nat) (c : Contest) (s : Submission)
    (w : WinnerInput)
    (hc : findContest db cid = some c)
    (hw : c.winner = none)
    (hst : c.status = "Confirmed")
    (hid : w.submissionId = RawId.valid sid)
    (hsub : findSubmission db sid = some s) :
    (declareWinner db (RawId.valid cid) w).1 = DeclareResult.success ∧
    findContest (declareWinner db (RawId.valid cid) w).2 cid =
      some { c with winner := some { name := w.winnerName, email := w.winnerEmail,
                                     photo := w.winnerPhoto, submissionId := w.submissionId,
                                     declaredAt := db.now },
                    status := "Completed" } ∧
    findSubmission (declareWinner db (RawId.valid cid) w).2 sid =
      some { s with status := "Winner" } := by
  have e : declareWinner db (RawId.valid cid) w =
      (DeclareResult.success,
        setSubmissionF
          (setContestF db cid (fun c0 =>
            { c0 with winner := some { name := w.winnerName, email := w.winnerEmail,
                                       photo := w.winnerPhoto, submissionId := w.submissionId,
                                       declaredAt := db.now },
                      status := "Completed" }))
          sid (fun s0 => { s0 with status := "Winner" })) := by
    simp only [declareWinner, hc, hid]
    rw [if_neg (by simp [hw]), if_neg (by simp [hst])]
  rw [e]
  refine ⟨rfl, ?_, ?_⟩
  · show lookupA (updateA db.contests cid _) cid = _
    rw [lookupA_updateA_self]
    have h0 : lookupA db.contests cid = some c := hc
    rw [h0]
    rfl
  · show lookupA (updateA db.submissions sid _) sid = _
    rw [lookupA_updateA_self]
    have h0 : lookupA db.submissions sid = some s := hsub
    rw [h0]
    rfl

/-- Witness for C4: declaring submission 1 the winner of the Confirmed
contest 0. -/
theorem C4_declare_winner_success_witness :
    (declareWinner dbS (RawId.valid 0) wInB).1 = DeclareResult.success ∧
    findContest (declareWinner dbS (RawId.valid 0) wInB).2 0 =
      some { cB with winner := some { name := wInB.winnerName, email := wInB.winnerEmail,
                                      photo := wInB.winnerPhoto, submissionId := wInB.submissionId,
                                      declaredAt := dbS.now },
                     status := "Completed" } ∧
    findSubmission (declareWinner dbS (RawId.valid 0) wInB).2 1 =
      some { sA with status := "Winner" } :=
  C4_declare_winner_success dbS 0 1 cB sA wInB (by decide) rfl rfl rfl (by decide)

/-- Claim C5 counterexample: the early index.js creation handler stores the
caller-supplied status verbatim, so a contest created with status
"Confirmed" in the body does not start at Pending. -/
theorem C5_create_pending_counterexample :
    (findContest (createContest_early initDB dataEarly) 0).map Contest.status =
      some "Confirmed" ∧
    (findContest (createContest_early initDB dataEarly) 0).map Contest.status ≠
      some "Pending" := by
  decide

/-- Claim C5, amended: the part_000 creation handler (and the identical
authenticated part_001 revision) forces status = "Pending" regardless of
any caller-supplied status; the early index.js revision trusts the
caller-supplied status instead. -/
theorem C5_create_pending_amended (db : DB) (data : ContestInput) :
    (findContest (createContest db data) db.nextId).map Contest.status = some "Pending" := by
  show (lookupA ((db.nextId, contestDoc data db.now) :: db.contests) db.nextId).map
    Contest.status = some "Pending"
  simp [lookupA, List.find?_cons]
  rfl

/-- Claim C6: when the session is not complete, or the contest no longer
exists, or an order already exists for the session's transaction id, the
settlement performs no writes and returns the transaction id together with
the existing order's id (none when no order exists). -/
theorem C6_settlement_no_write (stripe : List (String × Session)) (db : DB) (sid : String)
    (sess : Session) (cid : Nat)
    (hs : retrieveSession stripe sid = some sess)
    (hcid : sess.contestId = RawId.valid cid)
    (h3 : ¬(sess.status = "complete" ∧ (findContest db cid).isSome = true ∧
            findOrderByTxn db sess.payment_intent = none)) :
    paymentSuccess stripe db sid =
      (PayResult.ok sess.payment_intent
        ((findOrderByTxn db sess.payment_intent).map Prod.fst), db) := by
  simp only [paymentSuccess, hs, hcid]
  cases hc : findContest db cid with
  | none => rfl
  | some c =>
    show (if sess.status = "complete" ∧ findOrderByTxn db sess.payment_intent = none then
        (PayResult.ok sess.payment_intent (some db.nextId), settle db sess cid c)
      else (PayResult.ok sess.payment_intent
        ((findOrderByTxn db sess.payment_intent).map Prod.fst), db)) =
      (PayResult.ok sess.payment_intent
        ((findOrderByTxn db sess.payment_intent).map Prod.fst), db)
    rw [if_neg (fun hand => h3 ⟨hand.1, by rw [hc]; rfl, hand.2⟩)]

/-- Witness for C6: the retrievable but not completed session cs_2 settles
without any write and yields no order id. -/
theorem C6_settlement_no_write_witness :
    paymentSuccess stripeA dbB "cs_2" =
      (PayResult.ok sessOpen.payment_intent
        ((findOrderByTxn dbB sessOpen.payment_intent).map Prod.fst), dbB) :=
  C6_settlement_no_write stripeA dbB "cs_2" sessOpen 0 (by decide) rfl (by decide)

/-- Claim C7: creator-initiated deletion succeeds only when the contest is
Pending and the requester's verified email equals the recorded creator
email; whenever either condition fails on an existing contest the handler
answers Forbidden and deletes nothing. -/
theorem C7_creator_delete_guard (db : DB) (email : String) (rid : RawId) :
    (∀ i c, rid = RawId.valid i → findContest db i = some c →
      (c.status ≠ "Pending" ∨ c.contestCreator.email ≠ email) →
      ∃ m, creatorDelete db email rid = (DeleteResult.forbidden m, db)) ∧
    ((creatorDelete db email rid).1 = DeleteResult.ok →
      ∃ i c, rid = RawId.valid i ∧ findContest db i = some c ∧
        c.status = "Pending" ∧ c.contestCreator.email = email ∧
        (creatorDelete db email rid).2 = removeContest db i) := by
  constructor
  · rintro i c rfl hc hbad
    simp only [creatorDelete, hc]
    by_cases h1 : c.status ≠ "Pending"
    · exact ⟨_, by rw [if_pos h1]⟩
    · have h2 : c.contestCreator.email ≠ email := by
        rcases hbad with hb | hb
        · exact absurd hb h1
        · exact hb
      exact ⟨_, by rw [if_neg h1, if_pos h2]⟩
  · intro hok
    rcases rid with s | i
    · exact absurd hok (by simp [creatorDelete])
    · cases hc : findContest db i with
      | none =>
        have e : creatorDelete db email (RawId.valid i) =
            (DeleteResult.notFound "Contest not found.", db) := by
          simp only [creatorDelete, hc]
        rw [e] at hok
        exact absurd hok (by simp)
      | some c =>
        by_cases h1 : c.status ≠ "Pending"
        · have e : creatorDelete db email (RawId.valid i) =
              (DeleteResult.forbidden
                "Contests can only be deleted if the status is Pending.", db) := by
            simp only [creatorDelete, hc]
            rw [if_pos h1]
          rw [e] at hok
          exact absurd hok (by simp)
        · by_cases h2 : c.contestCreator.email ≠ email
          · have e : creatorDelete db email (RawId.valid i) =
                (DeleteResult.forbidden
                  "Forbidden: You are not the creator of this contest.", db) := by
              simp only [creatorDelete, hc]
              rw [if_neg h1, if_pos h2]
            rw [e] at hok
            exact absurd hok (by simp)
          · have e : creatorDelete db email (RawId.valid i) =
                (DeleteResult.ok, removeContest db i) := by
              simp only [creatorDelete, hc]
              rw [if_neg h1, if_neg h2]
            exact ⟨i, c, rfl, hc, not_not.mp h1, not_not.mp h2, by rw [e]⟩

/-- Witness for C7: the creator's own contest, already Confirmed, is
refused with Forbidden and nothing is deleted. -/
theorem C7_creator_delete_guard_witness :
    ∃ m, creatorDelete dbB "alice@x.com" (RawId.valid 0) = (DeleteResult.forbidden m, dbB) :=
  (C7_creator_delete_guard dbB "alice@x.com" (RawId.valid 0)).1 0 cB rfl (by decide) (by decide)

/-- Claim C8 counterexample: the claim says a malformed contest id fails
with NotFound, but the handler answers 400 "Invalid Contest ID" (an
invalid-input failure), not NotFound. -/
theorem C8_admin_status_counterexample :
    contestStatus dbA "admin@x.com" (RawId.malformed "xyz") "Confirmed" =
      (StatusResult.invalidInput "Invalid Contest ID", dbA) ∧
    (contestStatus dbA "admin@x.com" (RawId.malformed "xyz") "Confirmed").1 ≠
      StatusResult.notFound := by
  decide

/-- Claim C8, amended: the admin approve/reject accepts only a target
status in Confirmed/Rejected and rejects any other value as invalid input;
it records the approver's email and a timestamp on success; it fails with
NotFound when the (well-formed) contest id does not exist, and with an
invalid-input failure — not NotFound — when the id is malformed. -/
theorem C8_admin_status_amended (db : DB) (adm : String) (rid : RawId) (st : String) :
    (∀ s, rid = RawId.malformed s →
      contestStatus db adm rid st = (StatusResult.invalidInput "Invalid Contest ID", db)) ∧
    (∀ i, rid = RawId.valid i → st ≠ "Confirmed" → st ≠ "Rejected" →
      contestStatus db adm rid st =
        (StatusResult.invalidInput "Invalid status value provided", db)) ∧
    (∀ i, rid = RawId.valid i → (st = "Confirmed" ∨ st = "Rejected") →
      findContest db i = none → contestStatus db adm rid st = (StatusResult.notFound, db)) ∧
    (∀ i c, rid = RawId.valid i → (st = "Confirmed" ∨ st = "Rejected") →
      findContest db i = some c →
      (contestStatus db adm rid st).1 = StatusResult.ok ∧
      findContest (contestStatus db adm rid st).2 i =
        some { c with status := st, approvedBy := some adm, approvedAt := some db.now }) := by
  refine ⟨?_, ?_, ?_, ?_⟩
  · rintro s rfl
    rfl
  · rintro i rfl h1 h2
    simp only [contestStatus]
    rw [if_neg (by rintro (h | h) <;> [exact h1 h; exact h2 h])]
  · rintro i rfl hst hnone
    simp only [contestStatus, hnone]
    rw [if_pos hst]
  · rintro i c rfl hst hc
    have e : contestStatus db adm (RawId.valid i) st =
        (StatusResult.ok, setContestF db i (fun c0 =>
          { c0 with status := st, approvedBy := some adm, approvedAt := some db.now })) := by
      simp only [contestStatus, hc]
      rw [if_pos hst]
    rw [e]
    refine ⟨rfl, ?_⟩
    show lookupA (updateA db.contests i _) i = _
    rw [lookupA_updateA_self]
    have h0 : lookupA db.contests i = some c := hc
    rw [h0]
    rfl

/-- Witness for the amended C8: a well-formed but unknown id answers
NotFound and writes nothing. -/
theorem C8_admin_status_witness :
    contestStatus dbA "admin@x.com" (RawId.valid 7) "Confirmed" = (StatusResult.notFound, dbA) :=
  (C8_admin_status_amended dbA "admin@x.com" (RawId.valid 7) "Confirmed").2.2.1
    7 rfl (Or.inl rfl) (by decide)

/-- Claim C9: the reported win percentage is 0 when there are no
participations, and otherwise wins divided by participations times 100,
rounded to two decimal places (represented as hundredths); in particular 2
wins out of 4 participations reports 5000 hundredths, i.e. 50.00. -/
theorem C9_win_percentage (db : DB) (email : String) :
    ((myStats db email).participationCount = 0 → (myStats db email).winPercentage = 0) ∧
    ((myStats db email).participationCount ≠ 0 →
      (myStats db email).winPercentage =
        round ((((myStats db email).winCount : ℚ) /
          ((myStats db email).participationCount : ℚ) * 100) * 100)) ∧
    myStats dbStats "p@x.com" =
      { participationCount := 4, winCount := 2, winPercentage := 5000 } := by
  refine ⟨?_, ?_, ?_⟩
  · intro h0
    show toFixed2 (if countParticipations db email > 0 then
      ((countWins db email : ℚ) / (countParticipations db email : ℚ)) * 100 else 0) = 0
    have hp : countParticipations db email = 0 := h0
    rw [hp]
    norm_num [toFixed2]
  · intro hne
    have hp : countParticipations db email ≠ 0 := hne
    show toFixed2 (if countParticipations db email > 0 then
      ((countWins db email : ℚ) / (countParticipations db email : ℚ)) * 100 else 0) =
      round (((countWins db email : ℚ) / (countParticipations db email : ℚ) * 100) * 100)
    rw [if_pos (Nat.pos_of_ne_zero hp)]
    rfl
  · have h1 : countParticipations dbStats "p@x.com" = 4 := by decide
    have h2 : countWins dbStats "p@x.com" = 2 := by decide
    simp only [myStats, h1, h2]
    norm_num [toFixed2]

/-- Witness for C9 at the concrete store with 4 participations and 2
wins. -/
theorem C9_win_percentage_witness :
    (myStats dbStats "p@x.com").winPercentage =
      round ((((myStats dbStats "p@x.com").winCount : ℚ) /
        ((myStats dbStats "p@x.com").participationCount : ℚ) * 100) * 100) :=
  (C9_win_percentage dbStats "p@x.com").2.1 (by decide)

/-- Claim C10 counterexample: the early index.js update handler applies the
payload verbatim, so an update whose body carries status "Confirmed" does
change the lifecycle state of a Pending contest. -/
theorem C10_update_preserves_status_counterexample :
    (findContest dbA 0).map Contest.status = some "Pending" ∧
    (findContest (updateContest_early dbA (RawId.valid 0) pConfirm).2 0).map Contest.status =
      some "Confirmed" ∧
    (findContest (updateContest_early dbA (RawId.valid 0) pConfirm).2 0).map Contest.status ≠
      (findContest dbA 0).map Contest.status := by
  decide

/-- Claim C10, amended: in the revisions that strip the status key
(part_000 and the authenticated part_001 revision), every contest's status
after any update equals its status before, for every payload; in the early
index.js revision the payload's status is applied verbatim. -/
theorem C10_update_preserves_status_amended (db : DB) (rid : RawId) (p : UpdatePayload)
    (i : Nat) :
    (findContest (updateContest db rid p).2 i).map Contest.status =
      (findContest db i).map Contest.status := by
  rcases rid with s | j
  · rfl
  · simp only [updateContest]
    cases hc : findContest db j with
    | none => rfl
    | some c =>
      by_cases hij : i = j
      · subst hij
        show (lookupA (updateA db.contests i _) i).map Contest.status = _
        rw [lookupA_updateA_self]
        have h0 : lookupA db.contests i = some c := hc
        rw [h0, hc]
        rfl
      · show (lookupA (updateA db.contests j _) i).map Contest.status = _
        rw [lookupA_updateA_ne db.contests j i _ hij]
        rfl

end ContestHub
